import Mathlib

/-!
Verification development for the superpowers-chrome browser-automation
core: the host/port override module (`skills/browsing/host-override.js`),
the MCP `use_browser` tool adapter (`mcp/src/index.ts`), and the capture /
action / wait layer of `chrome-ws-lib.js` (modelled from the specification
where that file is absent from the sources).

JavaScript strings are embedded as `List Char` where character-level
manipulation matters and as `String` elsewhere; `null`/`undefined` values
are embedded as `Option`; thrown exceptions are embedded as `Except`.
-/

namespace Chrome

/-! ## Decimal rendering of numbers (JS template-literal `${n}` semantics) -/

/-- Character for a single decimal digit `d < 10`. -/
def digitChar (d : Nat) : Char := Char.ofNat (48 + d)

/-- Fuel-bounded digit recursion; the fuel is structural so that
concrete values reduce in the kernel. -/
def natDecimalGo : Nat → Nat → List Char
  | 0, _ => []
  | fuel + 1, n =>
    if n < 10 then [digitChar n]
    else natDecimalGo fuel (n / 10) ++ [digitChar (n % 10)]

/-- Decimal digit list of a natural number, most significant first.
Embeds the rendering a JS template literal performs on a nonnegative
integer. -/
def natDecimal (n : Nat) : List Char := natDecimalGo (n + 1) n

theorem natDecimalGo_congr :
    ∀ f1 f2 n, n < f1 → n < f2 → natDecimalGo f1 n = natDecimalGo f2 n := by
  intro f1
  induction f1 with
  | zero => omega
  | succ f ih =>
    intro f2 n h1 h2
    cases f2 with
    | zero => omega
    | succ g =>
      show natDecimalGo (f + 1) n = natDecimalGo (g + 1) n
      rw [natDecimalGo, natDecimalGo]
      by_cases h : n < 10
      · simp [h]
      · rw [if_neg h, if_neg h]
        have hdiv : n / 10 < n := Nat.div_lt_self (by omega) (by omega)
        rw [ih g (n / 10) (by omega) (by omega)]

/-- Unfolding equation of `natDecimal`, independent of fuel. -/
theorem natDecimal_eq (n : Nat) :
    natDecimal n =
      if n < 10 then [digitChar n]
      else natDecimal (n / 10) ++ [digitChar (n % 10)] := by
  show natDecimalGo (n + 1) n = _
  rw [natDecimalGo]
  by_cases h : n < 10
  · simp [h]
  · rw [if_neg h, if_neg h]
    have hdiv : n / 10 < n := Nat.div_lt_self (by omega) (by omega)
    rw [natDecimalGo_congr n (n / 10 + 1) (n / 10) (by omega) (by omega)]
    rfl

/-- Decimal string of a natural number. -/
def natRepr (n : Nat) : String := String.mk (natDecimal n)

/-- Value of a list of decimal digit characters, most significant first. -/
def digitsVal (cs : List Char) : Nat :=
  cs.foldl (fun acc c => acc * 10 + (c.toNat - 48)) 0

theorem digitsVal_append_singleton (cs : List Char) (c : Char) :
    digitsVal (cs ++ [c]) = digitsVal cs * 10 + (c.toNat - 48) := by
  simp [digitsVal, List.foldl_append]

theorem digitChar_toNat (d : Nat) (h : d < 10) : (digitChar d).toNat = 48 + d := by
  interval_cases d <;> rfl

theorem digitsVal_natDecimal (n : Nat) : digitsVal (natDecimal n) = n := by
  induction n using Nat.strong_induction_on with
  | _ n ih =>
    rw [natDecimal_eq]
    by_cases h : n < 10
    · simp [h, digitsVal, digitChar_toNat n h]
    · rw [if_neg h, digitsVal_append_singleton,
        ih (n / 10) (Nat.div_lt_self (by omega) (by omega)),
        digitChar_toNat (n % 10) (Nat.mod_lt _ (by omega))]
      omega

theorem natDecimal_ne_nil (n : Nat) : natDecimal n ≠ [] := by
  rw [natDecimal_eq]
  by_cases h : n < 10 <;> simp [h]

theorem mem_natDecimal_isDigit (n : Nat) : ∀ c ∈ natDecimal n, c.isDigit := by
  induction n using Nat.strong_induction_on with
  | _ n ih =>
    intro c hc
    rw [natDecimal_eq] at hc
    by_cases h : n < 10
    · rw [if_pos h] at hc
      simp at hc
      subst hc
      interval_cases n <;> decide
    · rw [if_neg h] at hc
      rcases List.mem_append.mp hc with h1 | h1
      · exact ih (n / 10) (Nat.div_lt_self (by omega) (by omega)) c h1
      · simp at h1
        subst h1
        have : n % 10 < 10 := Nat.mod_lt _ (by omega)
        interval_cases h2 : n % 10 <;> simp_all <;> decide

theorem natDecimal_length_le (k n : Nat) (hn : n < 10 ^ k) (hk : 0 < k) :
    (natDecimal n).length ≤ k := by
  induction k generalizing n with
  | zero => omega
  | succ k ih =>
    rw [natDecimal_eq]
    by_cases h : n < 10
    · rw [if_pos h]
      simp only [List.length_singleton]
      omega
    · rw [if_neg h]
      have hdiv : n / 10 < 10 ^ k := by
        rw [Nat.div_lt_iff_lt_mul (by omega)]
        calc n < 10 ^ (k + 1) := hn
          _ = 10 ^ k * 10 := by ring
      have hk0 : 0 < k := by
        by_contra hc
        have : k = 0 := by omega
        subst this
        simp at hdiv
        omega
      have := ih (n / 10) hdiv hk0
      simp [List.length_append]
      omega

/-! ## JavaScript `parseInt(s, 10)` -/

/-- Sign handling of JavaScript `parseInt`: a leading `-` or `+` is
consumed and fixes the sign; anything else leaves the input untouched. -/
def jsSign (cs : List Char) : Int × List Char :=
  match cs with
  | [] => (1, [])
  | c :: t => if c = '-' then (-1, t) else if c = '+' then (1, t) else (1, c :: t)

/-- Embedding of JavaScript `parseInt(s, 10)`: skip leading whitespace,
read an optional sign, then the maximal prefix of decimal digits; the
result is `NaN` (here `none`) when that prefix is empty. -/
def jsParseInt10 (s : String) : Option Int :=
  let sr := jsSign (s.data.dropWhile Char.isWhitespace)
  let ds := sr.2.takeWhile Char.isDigit
  if ds.isEmpty then none
  else some (sr.1 * (digitsVal ds : Int))

/-- The ten decimal digit characters. -/
def decDigits : List Char := ['0', '1', '2', '3', '4', '5', '6', '7', '8', '9']

theorem mem_natDecimal_mem_decDigits (n : Nat) :
    ∀ c ∈ natDecimal n, c ∈ decDigits := by
  induction n using Nat.strong_induction_on with
  | _ n ih =>
    intro c hc
    rw [natDecimal_eq] at hc
    by_cases h : n < 10
    · rw [if_pos h] at hc
      simp at hc
      subst hc
      interval_cases n <;> decide
    · rw [if_neg h] at hc
      rcases List.mem_append.mp hc with h1 | h1
      · exact ih (n / 10) (Nat.div_lt_self (by omega) (by omega)) c h1
      · simp at h1
        subst h1
        have : n % 10 < 10 := Nat.mod_lt _ (by omega)
        interval_cases h2 : n % 10 <;> simp_all <;> decide

theorem decDigit_props (c : Char) (h : c ∈ decDigits) :
    c.isDigit ∧ ¬ c.isWhitespace ∧ c ≠ '-' ∧ c ≠ '+' := by
  simp only [decDigits, List.mem_cons, List.not_mem_nil, or_false] at h
  rcases h with h | h | h | h | h | h | h | h | h | h <;> subst h <;>
    exact ⟨by decide, by decide, by decide, by decide⟩

theorem natDecimal_head (n : Nat) : ∃ c t, natDecimal n = c :: t := by
  rcases h : natDecimal n with _ | ⟨c, t⟩
  · exact absurd h (natDecimal_ne_nil n)
  · exact ⟨c, t, rfl⟩

theorem jsParseInt10_natRepr (n : Nat) : jsParseInt10 (natRepr n) = some n := by
  obtain ⟨c, t, hct⟩ := natDecimal_head n
  obtain ⟨hd, hnotws, hno_minus, hno_plus⟩ :=
    decDigit_props c (mem_natDecimal_mem_decDigits n c (hct ▸ List.mem_cons_self c t))
  have hall : ∀ x ∈ natDecimal n, x.isDigit := fun x hx =>
    (decDigit_props x (mem_natDecimal_mem_decDigits n x hx)).1
  have hdrop : (natDecimal n).dropWhile Char.isWhitespace = natDecimal n := by
    rw [hct, List.dropWhile_cons_of_neg (by simp [hnotws])]
  have htake : (natDecimal n).takeWhile Char.isDigit = natDecimal n :=
    List.takeWhile_eq_self_iff.mpr hall
  have hsign : jsSign (natDecimal n) = (1, natDecimal n) := by
    rw [hct, jsSign, if_neg hno_minus, if_neg hno_plus]
  have hne : (natDecimal n).isEmpty = false := by
    rw [List.isEmpty_eq_false_iff_exists_mem]
    exact ⟨c, hct ▸ List.mem_cons_self c t⟩
  unfold jsParseInt10
  simp only [natRepr, String.data]
  rw [hdrop, hsign]
  simp only []
  rw [htake, if_neg (by simp [hne]), digitsVal_natDecimal]
  simp

/-! ## host-override.js

Embedding of `skills/browsing/host-override.js`. Environment variables are
passed in explicitly as `Option String` (`none` = unset); JS `||`
falsiness on strings treats both `undefined` and `""` as absent. -/

def DEFAULT_PORT : Nat := 9222

def DEFAULT_HOST : String := "127.0.0.1"

/-- JS string falsiness used by `process.env.X || default`. -/
def jsFalsyStr : Option String → Bool
  | none => true
  | some s => s = ""

/-- Embedding of the `CHROME_DEBUG_PORT` module initializer: take the
`CHROME_WS_PORT` environment value (or the default rendered through a
template literal), run it through `parseInt(..., 10)`, and fall back to
the default on `NaN`. Total: module initialization cannot throw. -/
def CHROME_DEBUG_PORT (envPort : Option String) : Int :=
  let s := if jsFalsyStr envPort then natRepr DEFAULT_PORT else envPort.getD ""
  match jsParseInt10 s with
  | none => (DEFAULT_PORT : Int)
  | some parsed => parsed

/-- Embedding of the `CHROME_DEBUG_HOST` module initializer. -/
def CHROME_DEBUG_HOST (envHost : Option String) : String :=
  if jsFalsyStr envHost then DEFAULT_HOST else envHost.getD ""

/-! ### URL model

Model of the WHATWG `URL` object restricted to the
`scheme://host:port/path` shapes exchanged with the browser's debugging
endpoint: parsing splits at the first `"://"`, the first `/` thereafter,
and the first `:` inside the authority; serialization re-joins the
parts. An input with no scheme separator, an empty scheme, or an empty
host fails to parse (the constructor would throw). -/

structure Url where
  scheme : String
  host : String
  port : String
  path : String
deriving DecidableEq, Repr

/-- Split at the first occurrence of `sep`, returning the parts before
and after it; `none` when `sep` does not occur. -/
def splitFirst (sep : List Char) : List Char → Option (List Char × List Char)
  | [] => if sep.isEmpty then some ([], []) else none
  | c :: t =>
    if sep.isPrefixOf (c :: t) then some ([], (c :: t).drop sep.length)
    else
      match splitFirst sep t with
      | none => none
      | some (a, b) => some (c :: a, b)

def parseUrl (s : String) : Option Url :=
  match splitFirst "://".data s.data with
  | none => none
  | some (schemePart, rest) =>
    if schemePart.isEmpty then none
    else
      let hostport := rest.takeWhile (fun c => c ≠ '/')
      let path := rest.dropWhile (fun c => c ≠ '/')
      match splitFirst [':'] hostport with
      | none =>
        if hostport.isEmpty then none
        else some ⟨String.mk schemePart, String.mk hostport, "", String.mk path⟩
      | some (h, p) =>
        if h.isEmpty ∨ p.any (fun c => c = ':') then none
        else some ⟨String.mk schemePart, String.mk h, String.mk p, String.mk path⟩

def urlToString (u : Url) : String :=
  u.scheme ++ "://" ++ u.host ++ (if u.port = "" then "" else ":" ++ u.port) ++ u.path

/-- Embedding of `rewriteWsUrl(originalUrl, host, port)`: `null` (here
`none`) and the falsy empty string pass through, a string the `URL`
constructor rejects passes through via the `catch`, and otherwise the
parsed URL has its hostname and port replaced and is re-serialized. -/
def rewriteWsUrl (originalUrl : Option String) (host : String) (port : Nat) : Option String :=
  match originalUrl with
  | none => none
  | some s =>
    if s = "" then some s
    else
      match parseUrl s with
      | none => some s
      | some u => some (urlToString { u with host := host, port := natRepr port })

/-! ## MCP `use_browser` tool (mcp/src/index.ts)

Embedding of the tool adapter. The `chromeLib` module is abstracted as a
record of operations, each returning `Except String α`: `.error msg`
embeds a thrown exception carrying `msg`, `.ok` a normal return whose
displayed rendering (capture-record formatting) is kept abstract as the
returned string. Raw tool arguments are embedded pre-JSON-decoding as
optional fields. -/

inductive BrowserAction
  | navigate | click | typeText | extract | screenshot | evalScript
  | select | attr | awaitElement | awaitText | newTab | closeTab
  | listTabs | help
deriving DecidableEq, Repr

/-- Wire value of each `BrowserAction` enum member. -/
def BrowserAction.wire : BrowserAction → String
  | .navigate => "navigate"
  | .click => "click"
  | .typeText => "type"
  | .extract => "extract"
  | .screenshot => "screenshot"
  | .evalScript => "eval"
  | .select => "select"
  | .attr => "attr"
  | .awaitElement => "await_element"
  | .awaitText => "await_text"
  | .newTab => "new_tab"
  | .closeTab => "close_tab"
  | .listTabs => "list_tabs"
  | .help => "help"

def allBrowserActions : List BrowserAction :=
  [.navigate, .click, .typeText, .extract, .screenshot, .evalScript,
   .select, .attr, .awaitElement, .awaitText, .newTab, .closeTab,
   .listTabs, .help]

/-- Zod `z.nativeEnum(BrowserAction)` on the raw action string. -/
def parseBrowserAction (raw : String) : Except String BrowserAction :=
  match allBrowserActions.find? (fun a => a.wire = raw) with
  | some a => .ok a
  | none => .error ("Invalid enum value for action: " ++ raw)

/-- Raw arguments as received by the tool callback, before validation. -/
structure RawArgs where
  action : Option String
  tab_index : Option Int
  selector : Option String
  payload : Option String
  timeout : Option Int
deriving Repr

/-- Validated parameters (`z.infer` of the schema). -/
structure UseBrowserInput where
  action : BrowserAction
  tab_index : Int
  selector : Option String
  payload : Option String
  timeout : Int
deriving Repr

/-- Zod validation of `UseBrowserParams`: `action` must be an enum
member; `tab_index` is an integer `≥ 0` defaulting to `0`; `timeout` is
an integer in `[0, 60000]` defaulting to `5000`. Failure embeds a thrown
`ZodError` with the given message. -/
def zodParse (args : RawArgs) : Except String UseBrowserInput := do
  let act ← match args.action with
    | none => Except.error "action is required"
    | some a => parseBrowserAction a
  let ti := args.tab_index.getD 0
  if ti < 0 then Except.error "tab_index must be greater than or equal to 0"
  else
    let tm := args.timeout.getD 5000
    if tm < 0 then Except.error "timeout must be greater than or equal to 0"
    else if 60000 < tm then Except.error "timeout must be less than or equal to 60000"
    else Except.ok ⟨act, ti, args.selector, args.payload, tm⟩

/-- Abstracted `chrome-ws-lib` surface used by the adapter. -/
structure ChromeLib where
  getTabs : Except String String
  startChrome : Except String Unit
  navigate : Int → String → Except String String
  clickWithCapture : Int → String → Except String String
  fillWithCapture : Int → String → String → Except String String
  extractText : Int → String → Except String String
  getHtml : Int → Option String → Except String String
  evaluate : Int → String → Except String String
  screenshot : Int → String → Option String → Except String String
  selectOptionWithCapture : Int → String → String → Except String String
  evaluateWithCapture : Int → String → Except String String
  getAttribute : Int → String → String → Except String String
  waitForElement : Int → String → Int → Except String Unit
  waitForText : Int → String → Int → Except String Unit
  newTab : Except String String
  closeTab : Int → Except String Unit

/-- Whole-page markdown extraction script passed to `evaluate`
(abbreviated: the arrow-function body over headings, links, list items
and code blocks is elided; no claim depends on its text). -/
def markdownScript : String :=
  "Array.from(document.querySelectorAll(...)).map(...).filter(x => x).join(...)"

/-- Help text returned by the `help` action (abbreviated to its heading;
no claim depends on its text). -/
def helpText : String := "# Chrome Browser Control"

/-- Embedding of `executeBrowserAction`: the `switch` over the validated
action, including every precondition check that throws. JS truthiness
checks on `params.selector` / `params.payload` reject both absent values
and the empty string. -/
def executeBrowserAction (lib : ChromeLib) (p : UseBrowserInput) : Except String String :=
  match p.action with
  | .navigate =>
    if jsFalsyStr p.payload then .error "navigate requires payload with URL"
    else lib.navigate p.tab_index (p.payload.getD "")
  | .click =>
    if jsFalsyStr p.selector then .error "click requires selector"
    else lib.clickWithCapture p.tab_index (p.selector.getD "")
  | .typeText =>
    if jsFalsyStr p.selector then .error "type requires selector"
    else if jsFalsyStr p.payload then .error "type requires payload with text"
    else lib.fillWithCapture p.tab_index (p.selector.getD "") (p.payload.getD "")
  | .extract =>
    let format := if jsFalsyStr p.payload then "text" else p.payload.getD ""
    if jsFalsyStr p.selector = false then
      if format = "text" then lib.extractText p.tab_index (p.selector.getD "")
      else if format = "html" then lib.getHtml p.tab_index p.selector
      else .error "selector-based extraction only supports 'text' or 'html' format"
    else
      if format = "text" then lib.evaluate p.tab_index "document.body.innerText"
      else if format = "html" then lib.getHtml p.tab_index none
      else if format = "markdown" then lib.evaluate p.tab_index markdownScript
      else .error "extract format must be 'text', 'html', or 'markdown'"
  | .screenshot =>
    if jsFalsyStr p.payload then .error "screenshot requires payload with filename"
    else do
      let fp ← lib.screenshot p.tab_index (p.payload.getD "")
        (if jsFalsyStr p.selector then none else p.selector)
      .ok ("Screenshot saved to " ++ fp)
  | .select =>
    if jsFalsyStr p.selector then .error "select requires selector"
    else if jsFalsyStr p.payload then .error "select requires payload with option value"
    else lib.selectOptionWithCapture p.tab_index (p.selector.getD "") (p.payload.getD "")
  | .evalScript =>
    if jsFalsyStr p.payload then .error "eval requires payload with JavaScript code"
    else lib.evaluateWithCapture p.tab_index (p.payload.getD "")
  | .attr =>
    if jsFalsyStr p.selector then .error "attr requires selector"
    else if jsFalsyStr p.payload then .error "attr requires payload with attribute name"
    else lib.getAttribute p.tab_index (p.selector.getD "") (p.payload.getD "")
  | .awaitElement =>
    if jsFalsyStr p.selector then .error "await_element requires selector"
    else do
      let _ ← lib.waitForElement p.tab_index (p.selector.getD "") p.timeout
      .ok ("Element found: " ++ p.selector.getD "")
  | .awaitText =>
    if jsFalsyStr p.payload then .error "await_text requires payload with text to wait for"
    else do
      let _ ← lib.waitForText p.tab_index (p.payload.getD "") p.timeout
      .ok ("Text found: " ++ p.payload.getD "")
  | .newTab => do
    let id ← lib.newTab
    .ok ("New tab created: " ++ id)
  | .closeTab => do
    let _ ← lib.closeTab p.tab_index
    .ok ("Closed tab " ++ toString p.tab_index)
  | .listTabs => lib.getTabs
  | .help => .ok helpText

/-- Embedding of `ensureChromeRunning`, with the module-level
`chromeStarted` flag passed in. -/
def ensureChromeRunning (chromeStarted : Bool) (lib : ChromeLib) : Except String Unit :=
  if chromeStarted then .ok ()
  else
    match lib.getTabs with
    | .ok _ => .ok ()
    | .error _ =>
      match lib.startChrome with
      | .ok _ => .ok ()
      | .error e => .error ("Failed to auto-start Chrome: " ++ e)

/-- One MCP content block of the tool result. -/
structure McpContent where
  ctype : String
  text : String
deriving DecidableEq, Repr

/-- Body of the tool callback's `try` block: validate, ensure Chrome,
execute. -/
def useBrowserSteps (chromeStarted : Bool) (lib : ChromeLib) (args : RawArgs) :
    Except String String :=
  match zodParse args with
  | .error e => .error e
  | .ok p =>
    match ensureChromeRunning chromeStarted lib with
    | .error e => .error e
    | .ok _ => executeBrowserAction lib p

/-- Embedding of the registered `use_browser` tool callback: the whole
body is wrapped in `try`/`catch`, and the catch arm returns a normal
result whose single text block is the error message behind an
`"Error: "` marker. The function is total: the handler never rejects. -/
def useBrowserHandler (chromeStarted : Bool) (lib : ChromeLib) (args : RawArgs) :
    List McpContent :=
  match useBrowserSteps chromeStarted lib args with
  | .ok r => [⟨"text", r⟩]
  | .error e => [⟨"text", "Error: " ++ e⟩]

/-! ## CaptureSession (chrome-ws-lib.js, absent from the sources) -/

/-- Modelled from the spec: the `CaptureSession` singleton of
`chrome-ws-lib.js` (file absent from the sources), reduced to its
monotone capture counter; the root directory path plays no role in the
counter claims. -/
structure CaptureSession where
  counter : Nat
deriving DecidableEq, Repr

/-- JS `String.prototype.padStart(3, '0')`. -/
def padStart3 (s : String) : String :=
  String.mk (List.replicate (3 - s.data.length) '0') ++ s

/-- Modelled from the spec: `nextPrefix(label)` of `chrome-ws-lib.js`
(file absent from the sources) "atomically increments the counter and
returns a fixed-width zero-padded sequence joined with `label` (e.g.
`003-click`)". -/
def nextPrefix (s : CaptureSession) (label : String) : CaptureSession × String :=
  let c := s.counter + 1
  (⟨c⟩, padStart3 (natRepr c) ++ "-" ++ label)

/-- Trace of successive `nextPrefix` calls: for each label, the sequence
number and the returned file-name stem. -/
def sessionOutputs : CaptureSession → List String → List (Nat × String)
  | _, [] => []
  | s, l :: ls =>
    let sp := nextPrefix s l
    (sp.1.counter, sp.2) :: sessionOutputs sp.1 ls

theorem sessionOutputs_get? (c : Nat) (ls : List String) (i : Nat) (h : i < ls.length) :
    (sessionOutputs ⟨c⟩ ls).get? i =
      some (c + i + 1, padStart3 (natRepr (c + i + 1)) ++ "-" ++ ls.get ⟨i, h⟩) := by
  induction ls generalizing c i with
  | nil => simp at h
  | cons l ls ih =>
    cases i with
    | zero => simp [sessionOutputs, nextPrefix]
    | succ i =>
      have h' : i < ls.length := by simpa using h
      have e : c + (i + 1) + 1 = (c + 1) + i + 1 := by omega
      rw [e]
      simpa [sessionOutputs, nextPrefix] using ih (c + 1) i h'

theorem sessionOutputs_length (c : Nat) (ls : List String) :
    (sessionOutputs ⟨c⟩ ls).length = ls.length := by
  induction ls generalizing c with
  | nil => rfl
  | cons l ls ih => simp [sessionOutputs, nextPrefix, ih]

theorem sessionOutputs_fst_get (c : Nat) (ls : List String) (i : Nat)
    (h : i < ((sessionOutputs ⟨c⟩ ls).map Prod.fst).length) :
    ((sessionOutputs ⟨c⟩ ls).map Prod.fst).get ⟨i, h⟩ = c + i + 1 := by
  have hl : i < ls.length := by
    simpa [sessionOutputs_length] using h
  have h2 : i < (sessionOutputs ⟨c⟩ ls).length := by
    simpa [sessionOutputs_length] using hl
  rw [List.get_map]
  have := sessionOutputs_get? c ls i hl
  rw [List.get?_eq_get h2] at this
  simpa using congrArg Prod.fst (Option.some.inj this)

/-! ## fill (chrome-ws-lib.js, absent from the sources) -/

/-- State of the target element together with the log of synthetic
keypresses dispatched at it; the element's text value is embedded as
`List Char`. -/
structure ElementState where
  value : List Char
  keypresses : List String
deriving DecidableEq, Repr

/-- Dispatching the submit keypress (an Enter key event) at the element. -/
def dispatchSubmitKeypress (el : ElementState) : ElementState :=
  { el with keypresses := el.keypresses ++ ["Enter"] }

/-- JS `text.endsWith('\n')` on the `List Char` embedding. -/
def endsWithNewline (t : List Char) : Bool := t.getLast? = some '\n'

/-- Modelled from the spec: `fill(selector, text)` of `chrome-ws-lib.js`
(file absent from the sources) "sets the element value; if `text` ends
with a newline, additionally dispatches a submit keypress after
stripping the trailing newline from the set value". The selector has
already been resolved to the element being updated. -/
def fill (_selector : String) (text : List Char) (el : ElementState) : ElementState :=
  if endsWithNewline text then
    dispatchSubmitKeypress { el with value := text.dropLast }
  else
    { el with value := text }

/-! ## WaitEngine (chrome-ws-lib.js, absent from the sources) -/

def POLL_INTERVAL_MS : Nat := 100

inductive WaitResult
  | found : WaitResult
  | timedOut : Nat → WaitResult
deriving DecidableEq, Repr

/-- Outcome of a polling wait: its result, how many predicate checks ran,
and how many inter-poll sleeps were taken. -/
structure WaitOutcome where
  result : WaitResult
  checks : Nat
  sleeps : Nat
deriving DecidableEq, Repr

/-- Modelled from the spec: the WaitEngine polling loop of
`chrome-ws-lib.js` (file absent from the sources) — check the predicate;
on success stop; otherwise fail with `TimeoutError` (carrying elapsed
time) once the deadline has elapsed, else sleep one interval and retry.
`check tick` is the predicate's value at the given poll tick; fuel
bounds the recursion and is chosen large enough never to run out. -/
def pollLoop (check : Nat → Bool) (timeoutMs : Nat) :
    Nat → Nat → Nat → Nat → Nat → WaitOutcome
  | 0, _, elapsed, checks, sleeps => ⟨.timedOut elapsed, checks, sleeps⟩
  | fuel + 1, tick, elapsed, checks, sleeps =>
    if check tick then ⟨.found, checks + 1, sleeps⟩
    else if timeoutMs ≤ elapsed then ⟨.timedOut elapsed, checks + 1, sleeps⟩
    else pollLoop check timeoutMs fuel (tick + 1) (elapsed + POLL_INTERVAL_MS)
      (checks + 1) (sleeps + 1)

/-- Modelled from the spec: `waitForElement(selector, timeoutMs)` of
`chrome-ws-lib.js` (file absent from the sources), with the selector's
presence predicate over poll ticks abstracted as `check`. -/
def waitForElement (check : Nat → Bool) (timeoutMs : Nat) : WaitOutcome :=
  pollLoop check timeoutMs (timeoutMs / POLL_INTERVAL_MS + 1) 0 0 0 0

/-! ## TargetRegistry (chrome-ws-lib.js, absent from the sources) -/

/-- One browser tab as reported by the discovery endpoint. -/
structure Target where
  id : String
  title : String
  url : String
deriving DecidableEq, Repr

/-- Live browser state: the current tab list in discovery order. -/
structure Browser where
  tabs : List Target
deriving DecidableEq, Repr

/-- Modelled from the spec: `TargetRegistry.list()` (`getTabs` of
`chrome-ws-lib.js`, file absent from the sources) "re-queries the
browser's discovery endpoint on every call (never cached) and returns
targets in current order" — a pure function of the live browser state,
with no cache field anywhere in the model. -/
def TargetRegistry.list (b : Browser) : List Target := b.tabs

/-- Modelled from the spec: `TargetRegistry.resolve(index)` fails with
`IndexOutOfRange` if out of bounds, else returns the target at that
position of a fresh `list()`. -/
def TargetRegistry.resolve (b : Browser) (i : Nat) : Except String Target :=
  match (TargetRegistry.list b).get? i with
  | some t => .ok t
  | none => .error "IndexOutOfRange"

/-- Modelled from the spec: `TargetRegistry.close(index)` removes the tab
at that position, failing with `IndexOutOfRange` on an invalid index. -/
def TargetRegistry.close (b : Browser) (i : Nat) : Except String Browser :=
  if i < (TargetRegistry.list b).length then .ok ⟨(TargetRegistry.list b).eraseIdx i⟩
  else .error "IndexOutOfRange"

/-! ## CaptureArtifactWriter (chrome-ws-lib.js, absent from the sources) -/

/-- One capture's artifact set. `stem` is the zero-padded
sequence-plus-label file-name stem supplied by the session; each artifact
field is `some` content when its sub-fetch succeeded and `none` when it
was omitted; `softErrors` carries the non-fatal `CaptureError` notes. -/
structure CaptureRecord where
  stem : String
  html : Option String
  md : Option String
  png : Option String
  consoleTxt : Option String
  softErrors : List String
deriving DecidableEq, Repr

/-- Artifact kept from a settled sub-fetch: failures omit the artifact. -/
def settleArtifact : Except String String → Option String
  | .ok v => some v
  | .error _ => none

/-- Soft-error note recorded for a failed sub-fetch. -/
def artifactNote (name : String) : Except String String → List String
  | .ok _ => []
  | .error e => [name ++ " capture failed: " ++ e]

/-- Modelled from the spec: `captureActionState(target, label)` of
`chrome-ws-lib.js` (file absent from the sources), with the four
concurrent sub-fetches (HTML read, markdown derivation, screenshot,
console drain) passed in as settled `Except` outcomes. "Each sub-fetch's
failure is isolated: it omits that artifact and records a soft-error
note on the CaptureRecord but never fails the triggering action" — the
function is total and always returns a record. -/
def captureActionState (stem : String)
    (htmlR mdR pngR consoleR : Except String String) : CaptureRecord :=
  { stem
    html := settleArtifact htmlR
    md := settleArtifact mdR
    png := settleArtifact pngR
    consoleTxt := settleArtifact consoleR
    softErrors :=
      artifactNote "html" htmlR ++ artifactNote "markdown" mdR ++
      artifactNote "screenshot" pngR ++ artifactNote "console" consoleR }

/-- Number of artifacts present on a record. -/
def presentCount (r : CaptureRecord) : Nat :=
  (if r.html.isSome then 1 else 0) + (if r.md.isSome then 1 else 0) +
  (if r.png.isSome then 1 else 0) + (if r.consoleTxt.isSome then 1 else 0)

/-- Number of failed sub-fetches among the four. -/
def failCount (htmlR mdR pngR consoleR : Except String String) : Nat :=
  (if htmlR.isOk then 0 else 1) + (if mdR.isOk then 0 else 1) +
  (if pngR.isOk then 0 else 1) + (if consoleR.isOk then 0 else 1)

/-- Modelled from the spec: a capture-wrapped primitive — the primitive
runs first, and only on its success is the capture taken and merged into
the response; capture sub-fetch failures are already absorbed inside
`captureActionState` and cannot fail the action. -/
def actionWithCapture (primitive : Except String String) (stem : String)
    (htmlR mdR pngR consoleR : Except String String) :
    Except String (String × CaptureRecord) :=
  match primitive with
  | .error e => .error e
  | .ok v => .ok (v, captureActionState stem htmlR mdR pngR consoleR)

/-! ## DomSummarizer (chrome-ws-lib.js, absent from the sources) -/

/-- Character budget each reported heading is truncated to. -/
def HEADING_CHAR_BUDGET : Nat := 40

/-- Fixed character budget of the whole DOM summary. -/
def DOM_SUMMARY_CHAR_BUDGET : Nat := 250

/-- Raw inputs of the summary, as returned by the fixed selector
queries: interactive-element counts, landmark presence flags, and the
heading texts (arbitrarily many, arbitrarily long). -/
structure DomStats where
  buttons : Nat
  inputs : Nat
  links : Nat
  hasNav : Bool
  hasMain : Bool
  hasForms : Bool
  headings : List (List Char)
deriving DecidableEq, Repr

/-- Truncation of a heading to the fixed character budget, with a
truncation indicator. -/
def truncateChars (n : Nat) (s : List Char) : List Char :=
  if s.length ≤ n then s else s.take n ++ ['.', '.', '.']

/-- Quoted, truncated rendering of one heading. -/
def quoteHeading (h : List Char) : List Char :=
  '"' :: (truncateChars HEADING_CHAR_BUDGET h ++ ['"'])

/-- Join with a separator. -/
def sepJoin (sep : List Char) : List (List Char) → List Char
  | [] => []
  | [x] => x
  | x :: y :: xs => x ++ sep ++ sepJoin sep (y :: xs)

/-- Interactive-element count line of the summary. -/
def interactiveLine (d : DomStats) : List Char :=
  "Interactive: ".data ++ natDecimal d.buttons ++ " buttons, ".data ++
  natDecimal d.inputs ++ " inputs, ".data ++ natDecimal d.links ++ " links".data

/-- Headings line of the summary: up to three quoted, truncated headings
with a continuation indicator when more exist. -/
def headingsLine (d : DomStats) : List Char :=
  "Headings: ".data ++ sepJoin ", ".data ((d.headings.take 3).map quoteHeading) ++
  (if 3 < d.headings.length then " ...".data else [])

/-- Landmark names present on the page, in reporting order. -/
def landmarkParts (d : DomStats) : List (List Char) :=
  (if d.hasNav then ["nav".data] else []) ++
  (if d.hasMain then ["main".data] else []) ++
  (if d.hasForms then ["forms".data] else [])

/-- Layout line of the summary. -/
def layoutLine (d : DomStats) : List Char :=
  "Layout: ".data ++
  (if (landmarkParts d).isEmpty then "body".data else sepJoin ", ".data (landmarkParts d))

/-- Modelled from the spec: the DomSummarizer of `chrome-ws-lib.js`
(file absent from the sources) — one line of interactive-element counts,
one line of up to three truncated headings, one line of landmark
presence, as shown by the repository changelog's sample output. -/
def generateDomSummary (d : DomStats) : List Char :=
  interactiveLine d ++ '\n' :: (headingsLine d ++ '\n' :: layoutLine d)

theorem truncateChars_length_le (n : Nat) (s : List Char) :
    (truncateChars n s).length ≤ n + 3 := by
  unfold truncateChars
  by_cases h : s.length ≤ n
  · rw [if_pos h]; omega
  · rw [if_neg h]
    simp [List.length_append, List.length_take]

theorem quoteHeading_length_le (h : List Char) :
    (quoteHeading h).length ≤ HEADING_CHAR_BUDGET + 5 := by
  have := truncateChars_length_le HEADING_CHAR_BUDGET h
  simp [quoteHeading, List.length_append]
  omega

theorem sepJoin_length_le (sep : List Char) (a : Nat) :
    ∀ l : List (List Char), (∀ x ∈ l, x.length ≤ a) →
      (sepJoin sep l).length ≤ l.length * (a + sep.length)
  | [], _ => by simp [sepJoin]
  | [x], h => by
    have hx := h x (by simp)
    simp [sepJoin]
    omega
  | x :: y :: xs, h => by
    have hx := h x (by simp)
    have ih := sepJoin_length_le sep a (y :: xs) (fun z hz => h z (by simp [hz]))
    have e : (xs.length + 1 + 1) * (a + sep.length) =
        (a + sep.length) + (xs.length + 1) * (a + sep.length) := by ring
    simp only [sepJoin, List.length_append, List.length_cons] at ih ⊢
    omega

theorem interactiveLine_length_le (d : DomStats)
    (hb : d.buttons < 100000) (hi : d.inputs < 100000) (hl : d.links < 100000) :
    (interactiveLine d).length ≤ 53 := by
  have h1 := natDecimal_length_le 5 d.buttons (by norm_num; omega) (by norm_num)
  have h2 := natDecimal_length_le 5 d.inputs (by norm_num; omega) (by norm_num)
  have h3 := natDecimal_length_le 5 d.links (by norm_num; omega) (by norm_num)
  simp only [interactiveLine, List.length_append]
  norm_num
  omega

theorem headingsLine_length_le (d : DomStats) : (headingsLine d).length ≤ 155 := by
  have heach : ∀ x ∈ (d.headings.take 3).map quoteHeading, x.length ≤ 45 := by
    intro x hx
    rcases List.mem_map.mp hx with ⟨y, _, rfl⟩
    simpa [HEADING_CHAR_BUDGET] using quoteHeading_length_le y
  have hcount : ((d.headings.take 3).map quoteHeading).length ≤ 3 := by
    simp [List.length_take]
  have hjoin := sepJoin_length_le ", ".data 45
    ((d.headings.take 3).map quoteHeading) heach
  have hsep : (", ".data.length) = 2 := rfl
  rw [hsep] at hjoin
  have hjoin' : (sepJoin ", ".data ((d.headings.take 3).map quoteHeading)).length ≤ 141 :=
    le_trans hjoin (le_trans (Nat.mul_le_mul_right _ hcount) (by norm_num))
  simp only [headingsLine, List.length_append]
  have hdata : (", ".data) = [',', ' '] := rfl
  rw [hdata] at hjoin'
  by_cases h : 3 < d.headings.length
  · rw [if_pos h]
    simp only [List.length_cons, List.length_nil]
    omega
  · rw [if_neg h]
    simp only [List.length_cons, List.length_nil]
    omega

theorem layoutLine_length_le (d : DomStats) : (layoutLine d).length ≤ 29 := by
  rcases d with ⟨b, i, l, nav, mn, fo, hs⟩
  cases nav <;> cases mn <;> cases fo <;>
    simp [layoutLine, landmarkParts, sepJoin]

/-- Padding the claims budget: the whole summary. -/
theorem generateDomSummary_length_le (d : DomStats)
    (hb : d.buttons < 100000) (hi : d.inputs < 100000) (hl : d.links < 100000) :
    (generateDomSummary d).length ≤ 239 := by
  have h1 := interactiveLine_length_le d hb hi hl
  have h2 := headingsLine_length_le d
  have h3 := layoutLine_length_le d
  simp only [generateDomSummary, List.length_append, List.length_cons]
  omega

/-! ## Claims -/

/-- C1: if exactly one of the four concurrent capture sub-fetches fails,
`captureActionState` still yields a CaptureRecord carrying the other
three artifacts plus one soft-error note, and the triggering action
(here a succeeded primitive wrapped by `actionWithCapture`) does not
fail. -/
theorem capture_isolates_single_failure (stem v : String)
    (htmlR mdR pngR consoleR : Except String String)
    (h : failCount htmlR mdR pngR consoleR = 1) :
    ∃ rec, actionWithCapture (.ok v) stem htmlR mdR pngR consoleR = .ok (v, rec) ∧
      presentCount rec = 3 ∧ rec.softErrors.length = 1 := by
  refine ⟨captureActionState stem htmlR mdR pngR consoleR, rfl, ?_⟩
  rcases htmlR with e1 | v1 <;> rcases mdR with e2 | v2 <;>
    rcases pngR with e3 | v3 <;> rcases consoleR with e4 | v4 <;>
    simp [failCount, Except.isOk, Except.toBool] at h <;>
    simp [presentCount, captureActionState, settleArtifact, artifactNote]

/-- C1 witness: screenshot sub-fetch fails, the other three succeed. -/
theorem capture_isolates_single_failure_witness :
    ∃ rec, actionWithCapture (.ok "Clicked") "002-click"
        (.ok "<html></html>") (.ok "# page") (.error "screenshot failed") (.ok "") =
      .ok ("Clicked", rec) ∧ presentCount rec = 3 ∧ rec.softErrors.length = 1 :=
  capture_isolates_single_failure "002-click" "Clicked"
    (.ok "<html></html>") (.ok "# page") (.error "screenshot failed") (.ok "") rfl

/-- C2: within one CaptureSession, successive `nextPrefix` calls return
strictly increasing, unique sequence numbers, and the i-th call returns
the zero-padded sequence number joined to its label with a dash. -/
theorem capture_counter_strictly_increasing (labels : List String) :
    List.Pairwise (· < ·) ((sessionOutputs ⟨0⟩ labels).map Prod.fst) ∧
    ((sessionOutputs ⟨0⟩ labels).map Prod.fst).Nodup ∧
    (∀ i (h : i < labels.length),
      (sessionOutputs ⟨0⟩ labels).get? i =
        some (i + 1, padStart3 (natRepr (i + 1)) ++ "-" ++ labels.get ⟨i, h⟩)) := by
  have hpw : List.Pairwise (· < ·) ((sessionOutputs ⟨0⟩ labels).map Prod.fst) := by
    rw [List.pairwise_iff_get]
    intro i j hij
    rw [sessionOutputs_fst_get, sessionOutputs_fst_get]
    omega
  refine ⟨hpw, hpw.imp (fun hlt => by omega), ?_⟩
  intro i h
  simpa using sessionOutputs_get? 0 labels i h

/-- C2 witness: the third call of a session returns sequence 3 and the
stem `003-x`. -/
theorem capture_counter_strictly_increasing_witness :
    (sessionOutputs ⟨0⟩ ["navigate", "click", "x"]).get? 2 = some (3, "003-x") := by
  have h := (capture_counter_strictly_increasing ["navigate", "click", "x"]).2.2 2 (by decide)
  rw [h]
  decide

/-- C3: with configured host 127.0.0.1 and port 9222, `rewriteWsUrl`
normalizes the example WebSocket URL to the configured host/port; `null`
passes through as `null`; and any string the URL parser rejects is
returned unchanged rather than throwing. -/
theorem rewriteWsUrl_spec :
    rewriteWsUrl (some "ws://localhost:9999/devtools/page/abc") "127.0.0.1" 9222 =
      some "ws://127.0.0.1:9222/devtools/page/abc" ∧
    (∀ host port, rewriteWsUrl none host port = none) ∧
    (∀ s host port, parseUrl s = none → rewriteWsUrl (some s) host port = some s) := by
  refine ⟨by decide, fun _ _ => rfl, ?_⟩
  intro s host port h
  by_cases hs : s = ""
  · simp [rewriteWsUrl, hs]
  · simp [rewriteWsUrl, hs, h]

/-- C3 witness: the null and malformed-string pass-through cases at
concrete inputs. -/
theorem rewriteWsUrl_spec_witness :
    rewriteWsUrl none "127.0.0.1" 9222 = none ∧
    rewriteWsUrl (some "not a url") "127.0.0.1" 9222 = some "not a url" :=
  ⟨rewriteWsUrl_spec.2.1 "127.0.0.1" 9222,
   rewriteWsUrl_spec.2.2 "not a url" "127.0.0.1" 9222 (by decide)⟩

/-- C4: for text not already ending in a newline, filling with the text
plus a trailing newline sets the same element value as filling with the
bare text and then dispatching the submit keypress. -/
theorem fill_newline_strips_and_submits (sel : String) (x : List Char)
    (el : ElementState) (h : endsWithNewline x = false) :
    fill sel (x ++ ['\n']) el = dispatchSubmitKeypress (fill sel x el) := by
  have h1 : endsWithNewline (x ++ ['\n']) = true := by
    simp [endsWithNewline]
  simp [fill, h1, h, dispatchSubmitKeypress]

/-- C4 witness: filling `hi\n` equals filling `hi` then submitting. -/
theorem fill_newline_strips_and_submits_witness :
    fill "input" (['h', 'i'] ++ ['\n']) ⟨[], []⟩ =
      dispatchSubmitKeypress (fill "input" ['h', 'i'] ⟨[], []⟩) :=
  fill_newline_strips_and_submits "input" ['h', 'i'] ⟨[], []⟩ rfl

/-- C5: when the predicate does not hold at the moment of the call,
`waitForElement` with timeout 0 performs exactly one check, sleeps for no
polling interval, and fails immediately with a TimeoutError carrying
zero elapsed time. -/
theorem waitForElement_zero_timeout_single_check (check : Nat → Bool)
    (h : check 0 = false) :
    waitForElement check 0 = ⟨.timedOut 0, 1, 0⟩ := by
  show pollLoop check 0 (0 / POLL_INTERVAL_MS + 1) 0 0 0 0 = _
  norm_num
  simp [pollLoop, h]

/-- C5 witness: the always-absent selector predicate. -/
theorem waitForElement_zero_timeout_single_check_witness :
    waitForElement (fun _ => false) 0 = ⟨.timedOut 0, 1, 0⟩ :=
  waitForElement_zero_timeout_single_check (fun _ => false) rfl

/-- C6: `list()` is a pure function of the live browser state (never
cached), so after `close(0)` succeeds on a browser with at least two
tabs, `resolve(0)` returns what `resolve(1)` returned before the close,
and the new listing is the old one without its head. -/
theorem resolve_after_close_shifts_index (b : Browser) (h : 2 ≤ b.tabs.length) :
    ∃ b', TargetRegistry.close b 0 = .ok b' ∧
      TargetRegistry.resolve b' 0 = TargetRegistry.resolve b 1 ∧
      TargetRegistry.list b' = (TargetRegistry.list b).tail := by
  rcases b with ⟨tabs⟩
  rcases tabs with _ | ⟨t0, tabs⟩
  · simp at h
  · refine ⟨⟨tabs⟩, ?_, ?_, rfl⟩
    · simp [TargetRegistry.close, TargetRegistry.list]
    · simp [TargetRegistry.resolve, TargetRegistry.list]

/-- C6 witness: a two-tab browser. -/
theorem resolve_after_close_shifts_index_witness :
    ∃ b', TargetRegistry.close ⟨[⟨"A", "first", "https://a.example"⟩,
        ⟨"B", "second", "https://b.example"⟩]⟩ 0 = .ok b' ∧
      TargetRegistry.resolve b' 0 =
        TargetRegistry.resolve ⟨[⟨"A", "first", "https://a.example"⟩,
          ⟨"B", "second", "https://b.example"⟩]⟩ 1 ∧
      TargetRegistry.list b' =
        (TargetRegistry.list ⟨[⟨"A", "first", "https://a.example"⟩,
          ⟨"B", "second", "https://b.example"⟩]⟩).tail :=
  resolve_after_close_shifts_index _ (by decide)

/-- C7: for any page whose per-class interactive-element counts fit a
realistic DOM (fewer than 100000 each — covering both a near-empty page
and one with 10000 elements), the DOM summary stays under its fixed
character budget, independently of how many headings the page has and
how long they are. -/
theorem generateDomSummary_within_budget (d : DomStats)
    (hb : d.buttons < 100000) (hi : d.inputs < 100000) (hl : d.links < 100000) :
    (generateDomSummary d).length ≤ DOM_SUMMARY_CHAR_BUDGET :=
  le_trans (generateDomSummary_length_le d hb hi hl) (by norm_num [DOM_SUMMARY_CHAR_BUDGET])

/-- C7 witness: a near-empty page and a page of 10000 elements with many
long headings both fit the budget. -/
theorem generateDomSummary_within_budget_witness :
    (generateDomSummary ⟨0, 0, 0, false, false, false, []⟩).length ≤
      DOM_SUMMARY_CHAR_BUDGET ∧
    (generateDomSummary ⟨4000, 3000, 3000, true, true, true,
        List.replicate 500 (List.replicate 300 'h')⟩).length ≤
      DOM_SUMMARY_CHAR_BUDGET :=
  ⟨generateDomSummary_within_budget _ (by norm_num) (by norm_num) (by norm_num),
   generateDomSummary_within_budget _ (by norm_num) (by norm_num) (by norm_num)⟩

/-- C8: with both environment inputs unset the configured debug host is
127.0.0.1 and the port 9222; with a host string and a numeric port
string set, those values are used instead. -/
theorem host_port_env_selection :
    CHROME_DEBUG_HOST none = "127.0.0.1" ∧
    CHROME_DEBUG_PORT none = 9222 ∧
    (∀ h : String, h ≠ "" → CHROME_DEBUG_HOST (some h) = h) ∧
    (∀ n : Nat, CHROME_DEBUG_PORT (some (natRepr n)) = n) := by
  refine ⟨rfl, rfl, ?_, ?_⟩
  · intro h hne
    simp [CHROME_DEBUG_HOST, jsFalsyStr, hne]
  · intro n
    have hne : natRepr n ≠ "" := fun hc => natDecimal_ne_nil n (congrArg String.data hc)
    simp only [CHROME_DEBUG_PORT]
    rw [if_neg (by simp [jsFalsyStr, hne])]
    simp [Option.getD, jsParseInt10_natRepr n]

/-- C8 witness: the custom host/port pair of the module's smoke test. -/
theorem host_port_env_selection_witness :
    CHROME_DEBUG_HOST (some "10.1.2.3") = "10.1.2.3" ∧
    CHROME_DEBUG_PORT (some "9333") = 9333 := by
  constructor
  · exact host_port_env_selection.2.2.1 "10.1.2.3" (by decide)
  · have h := host_port_env_selection.2.2.2 9333
    have he : natRepr 9333 = "9333" := rfl
    rw [he] at h
    exact h

/-- C9: the `use_browser` tool callback is total and, whenever its try
block (validation, Chrome startup, action execution) raises an error, it
returns an ordinary single-text-block result whose text is the error
message behind the `Error: ` marker — it never rejects. -/
theorem useBrowserHandler_never_rejects (started : Bool) (lib : ChromeLib)
    (args : RawArgs) :
    (∃ t, useBrowserHandler started lib args = [⟨"text", t⟩]) ∧
    (∀ msg, useBrowserSteps started lib args = .error msg →
      useBrowserHandler started lib args = [⟨"text", "Error: " ++ msg⟩]) ∧
    (∀ msg, zodParse args = .error msg →
      useBrowserHandler started lib args = [⟨"text", "Error: " ++ msg⟩]) := by
  refine ⟨?_, ?_, ?_⟩
  · cases h : useBrowserSteps started lib args with
    | ok r => exact ⟨r, by simp [useBrowserHandler, h]⟩
    | error e => exact ⟨"Error: " ++ e, by simp [useBrowserHandler, h]⟩
  · intro msg h
    simp [useBrowserHandler, h]
  · intro msg h
    have hsteps : useBrowserSteps started lib args = .error msg := by
      simp [useBrowserSteps, h]
    simp [useBrowserHandler, hsteps]

/-- C9 witness: an unknown action string produces a normal text result
carrying the validation error. -/
theorem useBrowserHandler_never_rejects_witness :
    useBrowserHandler true
        ⟨.error "no chrome", .ok (), fun _ _ => .error "no chrome",
         fun _ _ => .error "no chrome", fun _ _ _ => .error "no chrome",
         fun _ _ => .error "no chrome", fun _ _ => .error "no chrome",
         fun _ _ => .error "no chrome", fun _ _ _ => .error "no chrome",
         fun _ _ _ => .error "no chrome", fun _ _ => .error "no chrome",
         fun _ _ _ => .error "no chrome", fun _ _ _ => .error "no chrome",
         fun _ _ _ => .error "no chrome", .error "no chrome",
         fun _ => .error "no chrome"⟩
        ⟨some "frobnicate", none, none, none, none⟩ =
      [⟨"text", "Error: Invalid enum value for action: frobnicate"⟩] :=
  (useBrowserHandler_never_rejects true _ _).2.2
    "Invalid enum value for action: frobnicate" rfl

/-- C10: a `CHROME_WS_PORT` value that `parseInt(..., 10)` cannot parse
at all falls back to the default port 9222 (module initialization is a
total function and cannot throw), while a value with a numeric prefix
such as `12abc` yields that numeric prefix. -/
theorem port_nan_falls_back_to_default :
    (∀ s : String, jsParseInt10 s = none → CHROME_DEBUG_PORT (some s) = 9222) ∧
    CHROME_DEBUG_PORT (some "12abc") = 12 := by
  constructor
  · intro s hs
    by_cases h : s = ""
    · subst h; rfl
    · simp only [CHROME_DEBUG_PORT]
      rw [if_neg (by simp [jsFalsyStr, h]), Option.getD]
      simp [hs, DEFAULT_PORT]
  · rfl

/-- C10 witness: the unparseable strings `abc` and the empty string both
yield the default. -/
theorem port_nan_falls_back_to_default_witness :
    CHROME_DEBUG_PORT (some "abc") = 9222 ∧ CHROME_DEBUG_PORT (some "") = 9222 :=
  ⟨port_nan_falls_back_to_default.1 "abc" rfl,
   port_nan_falls_back_to_default.1 "" rfl⟩

end Chrome
